import Mathlib

/-!
Verification of the issue-search pagination client (`src/github.ts`).

The source exposes `getMatchingIssues(token, searchQuery)`: it builds a
repo-scoped query text, then drives a cursor-paginated GraphQL search to
exhaustion, concatenating each page's issues.  We embed the loop as a
structural recursion over the finite script of remote responses (each one
either a transport error, a null body, or a page), instrumented with the
sequence of remote calls made (cursor argument and query text of each).
-/

/-- A label node as delivered by the API: an object with a `name` field. -/
structure LabelNode where
  name : String
  deriving DecidableEq

/-- The `labels` attribute of an issue: a connection object wrapping `nodes`. -/
structure Labels where
  nodes : List LabelNode
  deriving DecidableEq

/-- Mirrors the `Issue` interface of the source: `title`, `url`, and a
nested `labels.nodes[].name` connection. -/
structure Issue where
  title : String
  url : String
  labels : Labels
  deriving DecidableEq

/-- Mirrors the `NameWithOwner` interface: repository owner and name. -/
structure NameWithOwner where
  owner : String
  repo : String
  deriving DecidableEq

/-- Mirrors `search.pageInfo` of a query response. -/
structure PageInfo where
  endCursor : String
  hasNextPage : Bool
  deriving DecidableEq

/-- Mirrors the `search` member of a query response: page info plus nodes. -/
structure SearchConnection where
  pageInfo : PageInfo
  nodes : List Issue
  deriving DecidableEq

/-- Mirrors `QueryResponse`: a successful GraphQL response body. -/
structure QueryResponse where
  search : SearchConnection
  deriving DecidableEq

/-- Mirrors `GraphQlQueryResponseData = QueryResponse | null`. -/
abbrev GraphQlQueryResponseData := Option QueryResponse

/-- One scripted behaviour of the remote call: either it throws a
transport/authorization error, or it resolves to a (possibly null) body. -/
abbrev RemoteResponse := Except String GraphQlQueryResponseData

/-- Record of one invocation of `client.graphql`: the variables object
`\x7b cursor, searchQuery \x7d` passed to it. -/
structure GraphCall where
  cursor : Option String
  searchQuery : String
  deriving DecidableEq

/-- Outcome of running the loop against a finite response script:
a normal return of the accumulated issues, a propagated error, or
`pending` when the script ran out while the loop still wanted a page. -/
inductive RunOutcome where
  | ok : List Issue → RunOutcome
  | error : String → RunOutcome
  | pending : RunOutcome
  deriving DecidableEq

/-- Source `formatNameWithOwner`: the template string `owner/repo`. -/
def formatNameWithOwner (n : NameWithOwner) : String :=
  n.owner ++ "/" ++ n.repo

/-- The effective query text built at the top of `getMatchingIssues`:
the template string `repo:.../... predicate`. -/
def queryText (ctx : NameWithOwner) (searchQuery : String) : String :=
  "repo:" ++ formatNameWithOwner ctx ++ " " ++ searchQuery

/-- The `while (hasNextPage)` loop of `getMatchingIssues`, run against the
script of remote responses.  Each iteration records the call it makes.
On an error the loop aborts with that error and the accumulator is lost;
on a null body it returns the accumulator; on a page it appends the page's
nodes, adopts the page's end cursor, and continues iff `hasNextPage`. -/
def paginationLoop (qt : String) (cursor : Option String) (issues : List Issue) :
    List RemoteResponse → List GraphCall × RunOutcome
  | [] => ([], RunOutcome.pending)
  | Except.error e :: _ => ([⟨cursor, qt⟩], RunOutcome.error e)
  | Except.ok none :: _ => ([⟨cursor, qt⟩], RunOutcome.ok issues)
  | Except.ok (some results) :: rest =>
      if results.search.pageInfo.hasNextPage then
        let next := paginationLoop qt (some results.search.pageInfo.endCursor)
            (issues ++ results.search.nodes) rest
        (⟨cursor, qt⟩ :: next.1, next.2)
      else
        ([⟨cursor, qt⟩], RunOutcome.ok (issues ++ results.search.nodes))

/-- Source `getMatchingIssues`: builds the effective query text, then runs
the pagination loop with cursor `null` and an empty accumulator. -/
def getMatchingIssues (ctx : NameWithOwner) (searchQuery : String)
    (responses : List RemoteResponse) : List GraphCall × RunOutcome :=
  paginationLoop (queryText ctx searchQuery) none [] responses

/-- Concatenation of the issue lists of a list of pages, in order. -/
def pagesIssues : List QueryResponse → List Issue
  | [] => []
  | p :: ps => p.search.nodes ++ pagesIssues ps

/-- Number of issues delivered by one scripted response. -/
def respLen : RemoteResponse → Nat
  | Except.ok (some p) => p.search.nodes.length
  | _ => 0

/-- A response that ends pagination: a null body, or a page whose
`hasNextPage` is false. -/
def isTerminal : RemoteResponse → Bool
  | Except.ok none => true
  | Except.ok (some p) => !p.search.pageInfo.hasNextPage
  | Except.error _ => false

/-- The calls issued while consuming a run of continuing pages, starting
from cursor `c`: the first call carries `c`, each later call carries the
previous page's end cursor. -/
def prefixCalls (qt : String) : Option String → List QueryResponse → List GraphCall
  | _, [] => []
  | c, p :: ps => ⟨c, qt⟩ :: prefixCalls qt (some p.search.pageInfo.endCursor) ps

/-- The cursor in hand after consuming a run of pages, starting from `c`. -/
def lastCursor : Option String → List QueryResponse → Option String
  | c, [] => c
  | _, p :: ps => lastCursor (some p.search.pageInfo.endCursor) ps

/-- Label names of an issue, read out of the nested connection. -/
def labelNames (i : Issue) : List String :=
  i.labels.nodes.map LabelNode.name

/-- A JSON-like value, used to compare runtime shapes of attribute values. -/
inductive Json where
  | str : String → Json
  | arr : List Json → Json
  | obj : List (String × Json) → Json

/-- Runtime JSON shape of a label node: the object with a `name` field. -/
def LabelNode.toJson (l : LabelNode) : Json :=
  Json.obj [("name", Json.str l.name)]

/-- Runtime JSON shape of the `labels` attribute: an object with a `nodes`
array, exactly as the API delivers it and the code passes it through. -/
def Labels.toJson (ls : Labels) : Json :=
  Json.obj [("nodes", Json.arr (ls.nodes.map LabelNode.toJson))]

/-- First issue of the spec's scenario: title `A`, url `u1`, no labels. -/
def issueA : Issue := ⟨"A", "u1", ⟨[]⟩⟩

/-- Second issue of the spec's scenario: title `B`, url `u2`, one label
named `bug`. -/
def issueB : Issue := ⟨"B", "u2", ⟨[⟨"bug"⟩]⟩⟩

/-- Scenario page 1: `hasNextPage = true`, cursor `c1`, issues `[issueA]`. -/
def page1 : QueryResponse := ⟨⟨⟨"c1", true⟩, [issueA]⟩⟩

/-- Scenario page 2: `hasNextPage = false`, issues `[issueB]`. -/
def page2 : QueryResponse := ⟨⟨⟨"c2", false⟩, [issueB]⟩⟩

/-- Scenario repository context `org/repo`. -/
def scenarioCtx : NameWithOwner := ⟨"org", "repo"⟩

/-- Scenario response script: page 1 then page 2, both successful. -/
def scenarioResponses : List RemoteResponse :=
  [Except.ok (some page1), Except.ok (some page2)]

/-- A page carrying a duplicate of `issueB`, used to observe that no
deduplication happens across pages. -/
def pageDup : QueryResponse := ⟨⟨⟨"c1", true⟩, [issueB]⟩⟩

/-- Response script in which `issueB` arrives on two distinct pages. -/
def dupResponses : List RemoteResponse :=
  [Except.ok (some pageDup), Except.ok (some page2)]

/-- Sanity anchor: the spec's worked scenario.  Two calls are made, the
second with cursor `c1`, and the result is `[issueA, issueB]`. -/
theorem scenario_run :
    getMatchingIssues scenarioCtx "" scenarioResponses =
      ([⟨none, "repo:org/repo "⟩, ⟨some "c1", "repo:org/repo "⟩],
        RunOutcome.ok [issueA, issueB]) := by
  decide

theorem paginationLoop_cont (qt : String) (c : Option String) (issues : List Issue)
    (p : QueryResponse) (rest : List RemoteResponse)
    (h : p.search.pageInfo.hasNextPage = true) :
    paginationLoop qt c issues (Except.ok (some p) :: rest) =
      ((⟨c, qt⟩ : GraphCall) ::
          (paginationLoop qt (some p.search.pageInfo.endCursor)
            (issues ++ p.search.nodes) rest).1,
        (paginationLoop qt (some p.search.pageInfo.endCursor)
          (issues ++ p.search.nodes) rest).2) := by
  simp [paginationLoop, h]

theorem paginationLoop_stop (qt : String) (c : Option String) (issues : List Issue)
    (p : QueryResponse) (rest : List RemoteResponse)
    (h : p.search.pageInfo.hasNextPage = false) :
    paginationLoop qt c issues (Except.ok (some p) :: rest) =
      ([⟨c, qt⟩], RunOutcome.ok (issues ++ p.search.nodes)) := by
  simp [paginationLoop, h]

theorem pagesIssues_append (ps qs : List QueryResponse) :
    pagesIssues (ps ++ qs) = pagesIssues ps ++ pagesIssues qs := by
  induction ps with
  | nil => simp [pagesIssues]
  | cons p ps ih => simp [pagesIssues, ih]

theorem prefixCalls_length (qt : String) (c : Option String)
    (ps : List QueryResponse) : (prefixCalls qt c ps).length = ps.length := by
  induction ps generalizing c with
  | nil => rfl
  | cons p ps ih => simp [prefixCalls, ih]

theorem paginationLoop_pages (qt : String) (pages : List QueryResponse)
    (c : Option String) (issues : List Issue) (rest : List RemoteResponse)
    (h : ∀ p ∈ pages, p.search.pageInfo.hasNextPage = true) :
    paginationLoop qt c issues (pages.map (fun p => Except.ok (some p)) ++ rest) =
      (prefixCalls qt c pages ++
          (paginationLoop qt (lastCursor c pages) (issues ++ pagesIssues pages) rest).1,
        (paginationLoop qt (lastCursor c pages) (issues ++ pagesIssues pages) rest).2) := by
  induction pages generalizing c issues with
  | nil => simp [prefixCalls, lastCursor, pagesIssues]
  | cons p ps ih =>
      have hp : p.search.pageInfo.hasNextPage = true := h p (List.mem_cons_self p ps)
      have hps : ∀ q ∈ ps, q.search.pageInfo.hasNextPage = true :=
        fun q hq => h q (List.mem_cons_of_mem p hq)
      simp only [List.map_cons, List.cons_append,
        paginationLoop_cont qt c issues p _ hp, ih _ _ hps,
        prefixCalls, lastCursor, pagesIssues, List.append_assoc]

theorem paginationLoop_query (qt : String) (c : Option String) (issues : List Issue)
    (rs : List RemoteResponse) :
    ∀ call ∈ (paginationLoop qt c issues rs).1, call.searchQuery = qt := by
  induction rs generalizing c issues with
  | nil => intro call hc; simp [paginationLoop] at hc
  | cons r rest ih =>
      intro call hc
      match r with
      | Except.error e => simp [paginationLoop] at hc; simp [hc]
      | Except.ok none => simp [paginationLoop] at hc; simp [hc]
      | Except.ok (some p) =>
          by_cases h : p.search.pageInfo.hasNextPage = true
          · rw [paginationLoop_cont qt c issues p rest h] at hc
            rcases List.mem_cons.mp hc with h0 | h1
            · simp [h0]
            · exact ih _ _ call h1
          · rw [paginationLoop_stop qt c issues p rest (Bool.of_not_eq_true h)] at hc
            simp at hc; simp [hc]

theorem paginationLoop_first_call (qt : String) (c : Option String)
    (issues : List Issue) (rs : List RemoteResponse) :
    ∀ call, (paginationLoop qt c issues rs).1[0]? = some call →
      call = (⟨c, qt⟩ : GraphCall) := by
  intro call hc
  match rs with
  | [] => simp [paginationLoop] at hc
  | Except.error e :: rest => simp [paginationLoop] at hc; simp [hc]
  | Except.ok none :: rest => simp [paginationLoop] at hc; simp [hc]
  | Except.ok (some p) :: rest =>
      by_cases h : p.search.pageInfo.hasNextPage = true
      · rw [paginationLoop_cont qt c issues p rest h] at hc
        simp at hc; simp [hc]
      · rw [paginationLoop_stop qt c issues p rest (Bool.of_not_eq_true h)] at hc
        simp at hc; simp [hc]

theorem paginationLoop_succ_call (qt : String) (c : Option String)
    (issues : List Issue) (rs : List RemoteResponse) :
    ∀ i call, (paginationLoop qt c issues rs).1[i + 1]? = some call →
      ∃ p, rs[i]? = some (Except.ok (some p)) ∧
        p.search.pageInfo.hasNextPage = true ∧
        call = (⟨some p.search.pageInfo.endCursor, qt⟩ : GraphCall) := by
  induction rs generalizing c issues with
  | nil => intro i call hc; simp [paginationLoop] at hc
  | cons r rest ih =>
      intro i call hc
      match r with
      | Except.error e => simp [paginationLoop] at hc
      | Except.ok none => simp [paginationLoop] at hc
      | Except.ok (some p) =>
          by_cases h : p.search.pageInfo.hasNextPage = true
          · rw [paginationLoop_cont qt c issues p rest h] at hc
            simp only [List.getElem?_cons_succ] at hc
            match i with
            | 0 =>
                refine ⟨p, by simp, h, ?_⟩
                exact paginationLoop_first_call qt _ _ rest call hc
            | i' + 1 =>
                obtain ⟨p', hp', hn', hcall⟩ := ih _ _ i' call hc
                exact ⟨p', by simpa using hp', hn', hcall⟩
          · rw [paginationLoop_stop qt c issues p rest (Bool.of_not_eq_true h)] at hc
            simp at hc

theorem paginationLoop_mem_ok (qt : String) (c : Option String)
    (issues : List Issue) (rs : List RemoteResponse) (out : List Issue)
    (hok : (paginationLoop qt c issues rs).2 = RunOutcome.ok out) :
    ∀ x ∈ out, x ∈ issues ∨
      ∃ p, Except.ok (some p) ∈ rs ∧ x ∈ p.search.nodes := by
  induction rs generalizing c issues with
  | nil => simp [paginationLoop] at hok
  | cons r rest ih =>
      intro x hx
      match r with
      | Except.error e => simp [paginationLoop] at hok
      | Except.ok none =>
          simp [paginationLoop] at hok
          exact Or.inl (hok ▸ hx)
      | Except.ok (some p) =>
          by_cases h : p.search.pageInfo.hasNextPage = true
          · rw [paginationLoop_cont qt c issues p rest h] at hok
            rcases ih _ _ hok x hx with hin | ⟨p', hp', hx'⟩
            · rcases List.mem_append.mp hin with h0 | h1
              · exact Or.inl h0
              · exact Or.inr ⟨p, List.mem_cons_self _ _, h1⟩
            · exact Or.inr ⟨p', List.mem_cons_of_mem _ hp', hx'⟩
          · rw [paginationLoop_stop qt c issues p rest (Bool.of_not_eq_true h)] at hok
            simp only [RunOutcome.ok.injEq] at hok
            rcases List.mem_append.mp (hok ▸ hx) with h0 | h1
            · exact Or.inl h0
            · exact Or.inr ⟨p, List.mem_cons_self _ _, h1⟩

theorem paginationLoop_length_ok (qt : String) (c : Option String)
    (issues : List Issue) (rs : List RemoteResponse) (out : List Issue)
    (hok : (paginationLoop qt c issues rs).2 = RunOutcome.ok out) :
    out.length = issues.length +
      ((rs.take (paginationLoop qt c issues rs).1.length).map respLen).sum := by
  induction rs generalizing c issues with
  | nil => simp [paginationLoop] at hok
  | cons r rest ih =>
      match r with
      | Except.error e => simp [paginationLoop] at hok
      | Except.ok none =>
          simp [paginationLoop] at hok
          simp [paginationLoop, ← hok, respLen]
      | Except.ok (some p) =>
          by_cases h : p.search.pageInfo.hasNextPage = true
          · rw [paginationLoop_cont qt c issues p rest h] at hok
            have hrec := ih _ _ hok
            rw [paginationLoop_cont qt c issues p rest h]
            simp only [List.length_cons, List.take_succ_cons, List.map_cons,
              List.sum_cons, respLen]
            simp only [List.length_append] at hrec
            omega
          · rw [paginationLoop_stop qt c issues p rest (Bool.of_not_eq_true h)] at hok
            simp only [RunOutcome.ok.injEq] at hok
            rw [paginationLoop_stop qt c issues p rest (Bool.of_not_eq_true h)]
            simp [← hok, respLen]

/-- C1: for remote responses forming pages P1..Pn, each with
`hasNextPage = true` except the last, which has `hasNextPage = false`,
`getMatchingIssues` returns the concatenation of all pages' issue lists
in page-arrival order, order within each page as received. -/
theorem C1_completeness (ctx : NameWithOwner) (sq : String)
    (initPages : List QueryResponse) (lastPage : QueryResponse)
    (hinit : ∀ p ∈ initPages, p.search.pageInfo.hasNextPage = true)
    (hlast : lastPage.search.pageInfo.hasNextPage = false) :
    (getMatchingIssues ctx sq
        ((initPages ++ [lastPage]).map (fun p => Except.ok (some p)))).2 =
      RunOutcome.ok (pagesIssues (initPages ++ [lastPage])) := by
  unfold getMatchingIssues
  rw [List.map_append]
  simp only [List.map_cons, List.map_nil]
  rw [paginationLoop_pages _ _ _ _ _ hinit]
  rw [paginationLoop_stop _ _ _ _ _ hlast]
  simp [pagesIssues_append, pagesIssues]

/-- Witness for C1 at the spec's two-page scenario. -/
theorem C1_completeness_witness :
    (getMatchingIssues scenarioCtx ""
        (([page1] ++ [page2]).map (fun p => Except.ok (some p)))).2 =
      RunOutcome.ok (pagesIssues ([page1] ++ [page2])) :=
  C1_completeness scenarioCtx "" [page1] page2 (by decide) (by decide)

/-- C2, counterexample: the scenario's second returned issue does NOT have
a labels attribute equal to the plain list `["bug"]`; its labels attribute
is the nested connection object `\x7b nodes: [\x7b name: "bug" \x7d] \x7d`,
returned verbatim, which is an object and not an array of strings. -/
theorem C2_labels_counterexample :
    (getMatchingIssues scenarioCtx "" scenarioResponses).2 =
      RunOutcome.ok [issueA, issueB] ∧
    Labels.toJson issueB.labels ≠ Json.arr [Json.str "bug"] :=
  ⟨by decide, fun h => Json.noConfusion h⟩

/-- C2 (amended): every issue returned by `getMatchingIssues` comes
verbatim from some received page, so its `labels` attribute is the nested
connection object (a `nodes` list of records each holding a text `name`),
from which label names are read by projecting `name`; the scenario's
second issue has label names `["bug"]`. -/
theorem C2_labels_shape :
    (∀ (ctx : NameWithOwner) (sq : String) (responses : List RemoteResponse)
        (out : List Issue) (x : Issue),
        (getMatchingIssues ctx sq responses).2 = RunOutcome.ok out → x ∈ out →
          ∃ p, Except.ok (some p) ∈ responses ∧ x ∈ p.search.nodes) ∧
    labelNames issueB = ["bug"] ∧
    Labels.toJson issueB.labels =
      Json.obj [("nodes", Json.arr [Json.obj [("name", Json.str "bug")]])] := by
  refine ⟨?_, by decide, rfl⟩
  intro ctx sq responses out x hok hx
  rcases paginationLoop_mem_ok _ _ _ _ _ hok x hx with h0 | h1
  · simp at h0
  · exact h1

/-- Witness for C2 (amended) at the spec's scenario: `issueB` is found
verbatim on a received page. -/
theorem C2_labels_shape_witness :
    ∃ p, Except.ok (some p) ∈ scenarioResponses ∧ issueB ∈ p.search.nodes :=
  C2_labels_shape.1 scenarioCtx "" scenarioResponses [issueA, issueB] issueB
    (by decide) (by decide)

/-- C3: with owner `acme`, repo `widgets` and predicate
`is:open label:bug`, every remote call carries the query text
`repo:acme/widgets is:open label:bug`. -/
theorem C3_query_construction (responses : List RemoteResponse) :
    ∀ call ∈ (getMatchingIssues ⟨"acme", "widgets"⟩ "is:open label:bug"
        responses).1,
      call.searchQuery = "repo:acme/widgets is:open label:bug" := by
  intro call hc
  have h := paginationLoop_query _ _ _ _ call hc
  rw [h]
  rfl

/-- Witness for C3: the single call of a one-response run carries the
expected query text. -/
theorem C3_query_construction_witness :
    GraphCall.searchQuery ⟨none, "repo:acme/widgets is:open label:bug"⟩ =
      "repo:acme/widgets is:open label:bug" :=
  C3_query_construction [Except.ok none]
    ⟨none, "repo:acme/widgets is:open label:bug"⟩ (by decide)

/-- C4: a null remote response terminates pagination as a success: after
N-1 continuing pages, a null body on call N yields exactly the issues of
those N-1 pages (the empty sequence when the first call is null), with no
error raised. -/
theorem C4_null_termination (ctx : NameWithOwner) (sq : String)
    (initPages : List QueryResponse) (rest : List RemoteResponse)
    (hinit : ∀ p ∈ initPages, p.search.pageInfo.hasNextPage = true) :
    (getMatchingIssues ctx sq
        (initPages.map (fun p => Except.ok (some p)) ++
          Except.ok none :: rest)).2 =
      RunOutcome.ok (pagesIssues initPages) := by
  unfold getMatchingIssues
  rw [paginationLoop_pages _ _ _ _ _ hinit]
  simp [paginationLoop]

/-- Witness for C4: one page then a null response returns that page's
issues. -/
theorem C4_null_termination_witness :
    (getMatchingIssues scenarioCtx ""
        ([page1].map (fun p => Except.ok (some p)) ++
          Except.ok none :: [])).2 =
      RunOutcome.ok (pagesIssues [page1]) :=
  C4_null_termination scenarioCtx "" [page1] [] (by decide)

/-- C5: in every execution, the first remote call carries cursor `none`,
and the cursor of call N+1 equals the `endCursor` of the page returned by
call N. -/
theorem C5_cursor_propagation (ctx : NameWithOwner) (sq : String)
    (responses : List RemoteResponse) :
    (∀ call, (getMatchingIssues ctx sq responses).1[0]? = some call →
        call.cursor = none) ∧
    (∀ i call, (getMatchingIssues ctx sq responses).1[i + 1]? = some call →
        ∃ p, responses[i]? = some (Except.ok (some p)) ∧
          call.cursor = some p.search.pageInfo.endCursor) := by
  constructor
  · intro call hc
    rw [paginationLoop_first_call _ _ _ _ call hc]
  · intro i call hc
    obtain ⟨p, hp, _, hcall⟩ := paginationLoop_succ_call _ _ _ _ i call hc
    exact ⟨p, hp, by rw [hcall]⟩

/-- Witness for C5 at the spec's scenario: the first call's cursor is
absent, the second call's cursor is `c1` = page 1's end cursor. -/
theorem C5_cursor_propagation_witness :
    GraphCall.cursor ⟨none, "repo:org/repo "⟩ = none ∧
    ∃ p, scenarioResponses[0]? = some (Except.ok (some p)) ∧
      GraphCall.cursor ⟨some "c1", "repo:org/repo "⟩ =
        some p.search.pageInfo.endCursor := by
  constructor
  · exact (C5_cursor_propagation scenarioCtx "" scenarioResponses).1 _ (by decide)
  · exact (C5_cursor_propagation scenarioCtx "" scenarioResponses).2 0 _ (by decide)

/-- C6: if the call after N-1 continuing pages raises a transport error,
the whole operation yields that same error; accumulated issues are
discarded and no partial result is returned. -/
theorem C6_error_propagation (ctx : NameWithOwner) (sq : String)
    (initPages : List QueryResponse) (e : String) (rest : List RemoteResponse)
    (hinit : ∀ p ∈ initPages, p.search.pageInfo.hasNextPage = true) :
    (getMatchingIssues ctx sq
        (initPages.map (fun p => Except.ok (some p)) ++
          Except.error e :: rest)).2 =
      RunOutcome.error e := by
  unfold getMatchingIssues
  rw [paginationLoop_pages _ _ _ _ _ hinit]
  simp [paginationLoop]

/-- Witness for C6: a failure on the second call, after one page was
already received, yields the error and no issue list. -/
theorem C6_error_propagation_witness :
    (getMatchingIssues scenarioCtx ""
        ([page1].map (fun p => Except.ok (some p)) ++
          Except.error "boom" :: [])).2 =
      RunOutcome.error "boom" :=
  C6_error_propagation scenarioCtx "" [page1] "boom" [] (by decide)

/-- C7: if the first response is a page with `hasNextPage = false`,
exactly one remote call is made (with cursor `none` and the effective
query text) and exactly that page's issues are returned. -/
theorem C7_single_page (ctx : NameWithOwner) (sq : String)
    (p : QueryResponse) (rest : List RemoteResponse)
    (h : p.search.pageInfo.hasNextPage = false) :
    getMatchingIssues ctx sq (Except.ok (some p) :: rest) =
      ([⟨none, queryText ctx sq⟩], RunOutcome.ok p.search.nodes) := by
  unfold getMatchingIssues
  rw [paginationLoop_stop _ _ _ _ _ h]
  simp

/-- Witness for C7: a single terminal page returns its issues after one
call. -/
theorem C7_single_page_witness :
    getMatchingIssues scenarioCtx "" (Except.ok (some page2) :: []) =
      ([⟨none, queryText scenarioCtx ""⟩], RunOutcome.ok page2.search.nodes) :=
  C7_single_page scenarioCtx "" page2 [] (by decide)

/-- C8: whenever the run returns normally, the returned accumulator's
length equals the sum of the lengths of all received pages' issue lists
(a null body contributes zero); nothing is deduplicated, so an issue
delivered by two pages is counted — and appears — twice. -/
theorem C8_length_invariant (ctx : NameWithOwner) (sq : String)
    (responses : List RemoteResponse) (out : List Issue)
    (hok : (getMatchingIssues ctx sq responses).2 = RunOutcome.ok out) :
    out.length =
      ((responses.take (getMatchingIssues ctx sq responses).1.length).map
        respLen).sum := by
  have h := paginationLoop_length_ok (queryText ctx sq) none [] responses out hok
  simpa [getMatchingIssues] using h

/-- Witness for C8 on a script where `issueB` arrives on both pages: the
result has length 2, the duplicate appearing twice. -/
theorem C8_length_invariant_witness :
    ([issueB, issueB] : List Issue).length =
      ((dupResponses.take
          (getMatchingIssues scenarioCtx "" dupResponses).1.length).map
        respLen).sum :=
  C8_length_invariant scenarioCtx "" dupResponses [issueB, issueB] (by decide)

/-- C9: with finitely many responses of which one is terminal (null body
or `hasNextPage = false`) after a run of continuing pages, the loop
reaches its DONE state — a normal return — and makes no further remote
calls after the terminal response: exactly `initPages.length + 1` calls. -/
theorem C9_termination (ctx : NameWithOwner) (sq : String)
    (initPages : List QueryResponse) (tr : RemoteResponse)
    (rest : List RemoteResponse)
    (hinit : ∀ p ∈ initPages, p.search.pageInfo.hasNextPage = true)
    (hterm : isTerminal tr = true) :
    (∃ out, (getMatchingIssues ctx sq
        (initPages.map (fun p => Except.ok (some p)) ++ tr :: rest)).2 =
      RunOutcome.ok out) ∧
    (getMatchingIssues ctx sq
        (initPages.map (fun p => Except.ok (some p)) ++ tr :: rest)).1.length =
      initPages.length + 1 := by
  unfold getMatchingIssues
  rw [paginationLoop_pages _ _ _ _ _ hinit]
  match tr with
  | Except.error e => simp [isTerminal] at hterm
  | Except.ok none =>
      constructor
      · exact ⟨pagesIssues initPages, by simp [paginationLoop]⟩
      · simp [paginationLoop, prefixCalls_length]
  | Except.ok (some p) =>
      have hp : p.search.pageInfo.hasNextPage = false := by
        simpa [isTerminal] using hterm
      constructor
      · refine ⟨pagesIssues initPages ++ p.search.nodes, ?_⟩
        rw [paginationLoop_stop _ _ _ _ _ hp]
        simp
      · rw [paginationLoop_stop _ _ _ _ _ hp]
        simp [prefixCalls_length]

/-- Witness for C9: one continuing page followed by a null response ends
the run normally after exactly two calls. -/
theorem C9_termination_witness :
    (∃ out, (getMatchingIssues scenarioCtx ""
        ([page1].map (fun p => Except.ok (some p)) ++ Except.ok none :: [])).2 =
      RunOutcome.ok out) ∧
    (getMatchingIssues scenarioCtx ""
        ([page1].map (fun p => Except.ok (some p)) ++
          Except.ok none :: [])).1.length =
      [page1].length + 1 :=
  C9_termination scenarioCtx "" [page1] (Except.ok none) [] (by decide) (by decide)

/-- C10: with an empty predicate, every remote call's query text is the
repo qualifier followed by an unconditional trailing space:
`repo:<owner>/<repo> `. -/
theorem C10_trailing_space (owner repo : String)
    (responses : List RemoteResponse) :
    ∀ call ∈ (getMatchingIssues ⟨owner, repo⟩ "" responses).1,
      call.searchQuery = "repo:" ++ owner ++ "/" ++ repo ++ " " := by
  intro call hc
  have h := paginationLoop_query _ _ _ _ call hc
  rw [h]
  simp [queryText, formatNameWithOwner, String.append_assoc]

/-- Witness for C10: with owner `org`, repo `repo` and empty predicate,
the single call of a one-response run carries `repo:org/repo `
(trailing space included). -/
theorem C10_trailing_space_witness :
    GraphCall.searchQuery ⟨none, "repo:org/repo "⟩ =
      "repo:" ++ "org" ++ "/" ++ "repo" ++ " " :=
  C10_trailing_space "org" "repo" [Except.ok none]
    ⟨none, "repo:org/repo "⟩ (by decide)
